import Mathlib

/- Verification of the feature-detection engine of the browser-support-tool
repository (src/src/app/lib/analyzer.ts) against its natural-language
specification.  The TypeScript analyzer is shallowly embedded below: the
feature catalogue is reproduced verbatim as data, the snippet extractor and
the AST classifier are translated function by function, and the aggregation
steps (summary counts and the minimum-version matrix) are translated from
`analyzeCode`.  Source text is modelled as `List Char` with character
offsets, JavaScript numbers arising in version parsing are modelled as
exact decimal values, and the external Babel parser is an environment
parameter producing either a tree or a diagnostic message. -/

/-- Mirrors the `CodeSnippet` interface (analyzer.ts lines 5-12). -/
structure CodeSnippet where
  text : String
  startLine : Nat
  matchLine : Nat
  matchCol : Nat
  matchLength : Nat
  matchText : String
deriving DecidableEq, Repr

/-- The five browser slots of a version-support record
(analyzer.ts lines 17-23). -/
structure SupportRecord where
  chrome : String
  firefox : String
  safari : String
  edge : String
  ie : String
deriving DecidableEq, Repr

/-- Mirrors the `FeatureSupport` interface (analyzer.ts lines 14-25). -/
structure FeatureSupport where
  feature : String
  description : String
  support : SupportRecord
  notes : Option String
deriving DecidableEq, Repr

/-- Mirrors `DetectedFeature extends FeatureSupport` (analyzer.ts
lines 27-29): the catalogue entry spread together with the snippet list. -/
structure DetectedFeature where
  toFeatureSupport : FeatureSupport
  codeSnippets : List CodeSnippet
deriving DecidableEq, Repr

/-- The `summary` component of `AnalysisResult` (analyzer.ts lines 33-37). -/
structure Summary where
  totalFeatures : Nat
  modernFeatures : Nat
  legacySupport : Bool
deriving DecidableEq, Repr

/-- Mirrors the `AnalysisResult` interface (analyzer.ts lines 31-45). -/
structure AnalysisResult where
  features : List DetectedFeature
  summary : Summary
  minimumVersions : SupportRecord
deriving DecidableEq, Repr

/-- Catalogue entries 1-20 of `featureMap` (split for elaboration speed). -/
def featureChunk0 : List (String × FeatureSupport) := [
  ("arrow-function", ⟨"Arrow Functions", "Arrow function expressions (=>)",
    ⟨"45+", "22+", "10+", "12+", "No"⟩, none⟩),
  ("const-declaration", ⟨"Const Declaration", "Block-scoped constant declarations",
    ⟨"49+", "36+", "10+", "12+", "11*"⟩, some "IE11 has partial support"⟩),
  ("let-declaration", ⟨"Let Declaration", "Block-scoped variable declarations",
    ⟨"49+", "44+", "10+", "12+", "11*"⟩, some "IE11 has partial support"⟩),
  ("template-literal", ⟨"Template Literals", "Template literal syntax with $\x7b\x7d interpolation",
    ⟨"41+", "34+", "9+", "12+", "No"⟩, none⟩),
  ("destructuring", ⟨"Destructuring Assignment", "Destructuring objects and arrays",
    ⟨"49+", "41+", "8+", "14+", "No"⟩, none⟩),
  ("spread-operator", ⟨"Spread Operator", "Spread syntax (...) for arrays and objects",
    ⟨"46+", "16+", "10+", "12+", "No"⟩, none⟩),
  ("async-await", ⟨"Async/Await", "Asynchronous function syntax",
    ⟨"55+", "52+", "10.1+", "14+", "No"⟩, none⟩),
  ("promise", ⟨"Promises", "Native Promise implementation",
    ⟨"32+", "29+", "7.1+", "12+", "No"⟩, none⟩),
  ("class-declaration", ⟨"Classes", "ES6 class syntax",
    ⟨"49+", "45+", "9+", "13+", "No"⟩, none⟩),
  ("for-of", ⟨"For...of Loop", "For...of iteration syntax",
    ⟨"38+", "13+", "7+", "12+", "No"⟩, none⟩),
  ("optional-chaining", ⟨"Optional Chaining", "Optional chaining operator (?.)",
    ⟨"80+", "72+", "13.1+", "80+", "No"⟩, none⟩),
  ("nullish-coalescing", ⟨"Nullish Coalescing", "Nullish coalescing operator (??)",
    ⟨"80+", "72+", "13.1+", "80+", "No"⟩, none⟩),
  ("map-object", ⟨"Map Object", "Native Map data structure",
    ⟨"38+", "13+", "7.1+", "12+", "11+"⟩, none⟩),
  ("set-object", ⟨"Set Object", "Native Set data structure",
    ⟨"38+", "13+", "7.1+", "12+", "11+"⟩, none⟩),
  ("symbol", ⟨"Symbol", "Symbol primitive type",
    ⟨"38+", "36+", "9+", "12+", "No"⟩, none⟩),
  ("default-parameters", ⟨"Default Parameters", "Function default parameter values",
    ⟨"49+", "15+", "10+", "14+", "No"⟩, none⟩),
  ("rest-parameters", ⟨"Rest Parameters", "Rest parameters (...args)",
    ⟨"47+", "15+", "10+", "12+", "No"⟩, none⟩),
  ("computed-property", ⟨"Computed Property Names", "Object computed property names [key]: value",
    ⟨"47+", "34+", "8+", "12+", "No"⟩, none⟩),
  ("shorthand-property", ⟨"Shorthand Properties", "Object shorthand property syntax \x7ba, b\x7d",
    ⟨"43+", "33+", "9+", "12+", "No"⟩, none⟩),
  ("method-definition", ⟨"Method Definitions", "Object method shorthand \x7bmethod() \x7b\x7d\x7d",
    ⟨"39+", "34+", "9+", "12+", "No"⟩, none⟩)]

/-- Catalogue entries 21-40 of `featureMap` (split for elaboration speed). -/
def featureChunk1 : List (String × FeatureSupport) := [
  ("generator-function", ⟨"Generator Functions", "Generator functions function*",
    ⟨"39+", "26+", "10+", "13+", "No"⟩, none⟩),
  ("import-statement", ⟨"ES6 Modules (import)", "ES6 import statements",
    ⟨"61+", "60+", "10.1+", "16+", "No"⟩, none⟩),
  ("export-statement", ⟨"ES6 Modules (export)", "ES6 export statements",
    ⟨"61+", "60+", "10.1+", "16+", "No"⟩, none⟩),
  ("dynamic-import", ⟨"Dynamic Import", "Dynamic import() syntax",
    ⟨"63+", "67+", "11.1+", "79+", "No"⟩, none⟩),
  ("array-from", ⟨"Array.from()", "Array.from() method",
    ⟨"45+", "32+", "9+", "12+", "No"⟩, none⟩),
  ("array-find", ⟨"Array.find()", "Array.prototype.find() method",
    ⟨"45+", "25+", "7.1+", "12+", "No"⟩, none⟩),
  ("array-findindex", ⟨"Array.findIndex()", "Array.prototype.findIndex() method",
    ⟨"45+", "25+", "7.1+", "12+", "No"⟩, none⟩),
  ("array-includes", ⟨"Array.includes()", "Array.prototype.includes() method",
    ⟨"47+", "43+", "9+", "14+", "No"⟩, none⟩),
  ("array-flat", ⟨"Array.flat()", "Array.prototype.flat() method",
    ⟨"69+", "62+", "12+", "79+", "No"⟩, none⟩),
  ("array-flatmap", ⟨"Array.flatMap()", "Array.prototype.flatMap() method",
    ⟨"69+", "62+", "12+", "79+", "No"⟩, none⟩),
  ("object-assign", ⟨"Object.assign()", "Object.assign() method",
    ⟨"45+", "34+", "9+", "12+", "No"⟩, none⟩),
  ("object-keys", ⟨"Object.keys()", "Object.keys() method",
    ⟨"5+", "4+", "5+", "12+", "9+"⟩, none⟩),
  ("object-values", ⟨"Object.values()", "Object.values() method",
    ⟨"54+", "47+", "10.1+", "14+", "No"⟩, none⟩),
  ("object-entries", ⟨"Object.entries()", "Object.entries() method",
    ⟨"54+", "47+", "10.1+", "14+", "No"⟩, none⟩),
  ("object-fromentries", ⟨"Object.fromEntries()", "Object.fromEntries() method",
    ⟨"73+", "63+", "12.1+", "79+", "No"⟩, none⟩),
  ("string-includes", ⟨"String.includes()", "String.prototype.includes() method",
    ⟨"41+", "40+", "9+", "12+", "No"⟩, none⟩),
  ("string-startswith", ⟨"String.startsWith()", "String.prototype.startsWith() method",
    ⟨"41+", "17+", "9+", "12+", "No"⟩, none⟩),
  ("string-endswith", ⟨"String.endsWith()", "String.prototype.endsWith() method",
    ⟨"41+", "17+", "9+", "12+", "No"⟩, none⟩),
  ("string-repeat", ⟨"String.repeat()", "String.prototype.repeat() method",
    ⟨"41+", "24+", "9+", "12+", "No"⟩, none⟩),
  ("string-padstart", ⟨"String.padStart()", "String.prototype.padStart() method",
    ⟨"57+", "48+", "10+", "15+", "No"⟩, none⟩)]

/-- Catalogue entries 41-60 of `featureMap` (split for elaboration speed). -/
def featureChunk2 : List (String × FeatureSupport) := [
  ("string-padend", ⟨"String.padEnd()", "String.prototype.padEnd() method",
    ⟨"57+", "48+", "10+", "15+", "No"⟩, none⟩),
  ("weakmap", ⟨"WeakMap", "WeakMap data structure",
    ⟨"36+", "6+", "7.1+", "12+", "11+"⟩, none⟩),
  ("weakset", ⟨"WeakSet", "WeakSet data structure",
    ⟨"36+", "34+", "9+", "12+", "No"⟩, none⟩),
  ("proxy", ⟨"Proxy", "Proxy object for meta-programming",
    ⟨"49+", "18+", "10+", "12+", "No"⟩, none⟩),
  ("reflect", ⟨"Reflect", "Reflect global object",
    ⟨"49+", "42+", "10+", "12+", "No"⟩, none⟩),
  ("bigint", ⟨"BigInt", "BigInt primitive type",
    ⟨"67+", "68+", "14+", "79+", "No"⟩, none⟩),
  ("private-fields", ⟨"Private Class Fields", "Private class fields (#field)",
    ⟨"74+", "90+", "14.1+", "79+", "No"⟩, none⟩),
  ("static-class-fields", ⟨"Static Class Fields", "Static class fields",
    ⟨"72+", "75+", "14.1+", "79+", "No"⟩, none⟩),
  ("logical-assignment", ⟨"Logical Assignment", "Logical assignment operators (&&=, ||=, ??=)",
    ⟨"85+", "79+", "14+", "85+", "No"⟩, none⟩),
  ("numeric-separators", ⟨"Numeric Separators", "Numeric separators (1_000_000)",
    ⟨"75+", "70+", "13+", "79+", "No"⟩, none⟩),
  ("top-level-await", ⟨"Top-level Await", "Await expressions at module top level",
    ⟨"89+", "89+", "15+", "89+", "No"⟩, none⟩),
  ("regex-named-groups", ⟨"RegExp Named Capture Groups", "Named capture groups in regular expressions (?<name>...)",
    ⟨"64+", "78+", "11.1+", "79+", "No"⟩, none⟩),
  ("regex-lookbehind", ⟨"RegExp Lookbehind Assertions", "Lookbehind assertions in regular expressions (?<=...) (?<!...)",
    ⟨"62+", "78+", "16.4+", "79+", "No"⟩, none⟩),
  ("regex-unicode-property", ⟨"RegExp Unicode Property Escapes", "Unicode property escapes in regular expressions \\p\x7b...\x7d",
    ⟨"64+", "78+", "11.1+", "79+", "No"⟩, none⟩),
  ("regex-s-flag", ⟨"RegExp dotAll Flag", "Regular expression s flag (dotAll)",
    ⟨"62+", "78+", "11.1+", "79+", "No"⟩, none⟩),
  ("globalthis", ⟨"globalThis", "Global object reference",
    ⟨"71+", "65+", "12.1+", "79+", "No"⟩, none⟩),
  ("import-meta", ⟨"import.meta", "Module metadata object",
    ⟨"64+", "62+", "11.1+", "79+", "No"⟩, none⟩),
  ("array-at", ⟨"Array.at()", "Array.prototype.at() method for relative indexing",
    ⟨"92+", "90+", "15.4+", "92+", "No"⟩, none⟩),
  ("string-at", ⟨"String.at()", "String.prototype.at() method for relative indexing",
    ⟨"92+", "90+", "15.4+", "92+", "No"⟩, none⟩),
  ("string-replaceall", ⟨"String.replaceAll()", "String.prototype.replaceAll() method",
    ⟨"85+", "77+", "13.1+", "85+", "No"⟩, none⟩)]

/-- Catalogue entries 61-80 of `featureMap` (split for elaboration speed). -/
def featureChunk3 : List (String × FeatureSupport) := [
  ("promise-allsettled", ⟨"Promise.allSettled()", "Promise.allSettled() method",
    ⟨"76+", "71+", "13+", "79+", "No"⟩, none⟩),
  ("promise-any", ⟨"Promise.any()", "Promise.any() method",
    ⟨"85+", "79+", "14+", "85+", "No"⟩, none⟩),
  ("intl-relativetimeformat", ⟨"Intl.RelativeTimeFormat", "Internationalization relative time formatting",
    ⟨"71+", "65+", "14+", "79+", "No"⟩, none⟩),
  ("intl-listformat", ⟨"Intl.ListFormat", "Internationalization list formatting",
    ⟨"72+", "78+", "14.1+", "79+", "No"⟩, none⟩),
  ("finalizationregistry", ⟨"FinalizationRegistry", "Weak references and finalization",
    ⟨"84+", "79+", "14.1+", "84+", "No"⟩, none⟩),
  ("weakref", ⟨"WeakRef", "Weak references",
    ⟨"84+", "79+", "14.1+", "84+", "No"⟩, none⟩),
  ("private-methods", ⟨"Private Class Methods", "Private class methods (#method)",
    ⟨"84+", "90+", "15+", "84+", "No"⟩, none⟩),
  ("array-findlast", ⟨"Array.findLast()", "Array.prototype.findLast() method",
    ⟨"97+", "104+", "15.4+", "97+", "No"⟩, none⟩),
  ("array-findlastindex", ⟨"Array.findLastIndex()", "Array.prototype.findLastIndex() method",
    ⟨"97+", "104+", "15.4+", "97+", "No"⟩, none⟩),
  ("structuredclone", ⟨"structuredClone()", "Global structuredClone() function",
    ⟨"98+", "94+", "15.4+", "98+", "No"⟩, none⟩),
  ("string-matchall", ⟨"String.matchAll()", "String.prototype.matchAll() method",
    ⟨"73+", "67+", "13+", "79+", "No"⟩, none⟩),
  ("array-toreversed", ⟨"Array.toReversed()", "Array.prototype.toReversed() method (immutable reverse)",
    ⟨"110+", "115+", "16+", "110+", "No"⟩, none⟩),
  ("array-tosorted", ⟨"Array.toSorted()", "Array.prototype.toSorted() method (immutable sort)",
    ⟨"110+", "115+", "16+", "110+", "No"⟩, none⟩),
  ("array-tospliced", ⟨"Array.toSpliced()", "Array.prototype.toSpliced() method (immutable splice)",
    ⟨"110+", "115+", "16+", "110+", "No"⟩, none⟩),
  ("array-with", ⟨"Array.with()", "Array.prototype.with() method (immutable element replacement)",
    ⟨"110+", "115+", "16+", "110+", "No"⟩, none⟩),
  ("string-trimstart", ⟨"String.trimStart()", "String.prototype.trimStart() method",
    ⟨"66+", "61+", "12+", "79+", "No"⟩, none⟩),
  ("string-trimend", ⟨"String.trimEnd()", "String.prototype.trimEnd() method",
    ⟨"66+", "61+", "12+", "79+", "No"⟩, none⟩),
  ("object-hasown", ⟨"Object.hasOwn()", "Object.hasOwn() method",
    ⟨"93+", "92+", "15.4+", "93+", "No"⟩, none⟩),
  ("object-groupby", ⟨"Object.groupBy()", "Object.groupBy() method",
    ⟨"117+", "119+", "17+", "117+", "No"⟩, none⟩),
  ("json-parse-reviver", ⟨"JSON.parse() with source", "JSON.parse() with source text access",
    ⟨"105+", "No", "16+", "105+", "No"⟩, none⟩)]

/-- Catalogue entries 81-100 of `featureMap` (split for elaboration speed). -/
def featureChunk4 : List (String × FeatureSupport) := [
  ("temporal", ⟨"Temporal API", "New date/time API (Stage 3)",
    ⟨"No*", "No*", "No*", "No*", "No"⟩, some "Stage 3 proposal, available behind flags"⟩),
  ("decorators", ⟨"Decorators", "Class and method decorators",
    ⟨"120+", "No*", "No*", "120+", "No"⟩, some "Stage 3 proposal with limited support"⟩),
  ("iterator-helpers", ⟨"Iterator Helpers", "Iterator.prototype methods (map, filter, etc.)",
    ⟨"122+", "No*", "No*", "122+", "No"⟩, some "Stage 3 proposal"⟩),
  ("atomics", ⟨"Atomics", "Atomic operations for SharedArrayBuffer",
    ⟨"68+", "78+", "15.2+", "79+", "No"⟩, none⟩),
  ("sharedarraybuffer", ⟨"SharedArrayBuffer", "Shared memory between workers",
    ⟨"68+", "79+", "15.2+", "79+", "No"⟩, none⟩),
  ("bigint64array", ⟨"BigInt64Array", "Typed array for 64-bit integers",
    ⟨"67+", "68+", "15+", "79+", "No"⟩, none⟩),
  ("biguint64array", ⟨"BigUint64Array", "Typed array for 64-bit unsigned integers",
    ⟨"67+", "68+", "15+", "79+", "No"⟩, none⟩),
  ("error-cause", ⟨"Error.cause", "Error constructor with cause option",
    ⟨"93+", "91+", "15+", "93+", "No"⟩, none⟩),
  ("aggregate-error", ⟨"AggregateError", "Error that wraps multiple errors",
    ⟨"85+", "79+", "14+", "85+", "No"⟩, none⟩),
  ("regex-match-indices", ⟨"RegExp Match Indices", "RegExp d flag for match indices",
    ⟨"90+", "88+", "15+", "90+", "No"⟩, none⟩),
  ("hashbang", ⟨"Hashbang Grammar", "Shebang (#!) support in modules",
    ⟨"74+", "67+", "13.1+", "79+", "No"⟩, none⟩),
  ("import-assertions", ⟨"Import Assertions", "Import with type assertions",
    ⟨"91+", "No*", "No*", "91+", "No"⟩, some "Being replaced by Import Attributes"⟩),
  ("import-attributes", ⟨"Import Attributes", "Import with attributes (replaces assertions)",
    ⟨"123+", "No*", "No*", "123+", "No"⟩, some "Stage 3 proposal"⟩),
  ("resizable-arraybuffer", ⟨"Resizable ArrayBuffer", "ArrayBuffer.prototype.resize()",
    ⟨"111+", "No*", "16.4+", "111+", "No"⟩, none⟩),
  ("async-iteration", ⟨"Async Iteration", "for-await-of loops and async generators",
    ⟨"63+", "57+", "11.1+", "79+", "No"⟩, none⟩),
  ("regex-v-flag", ⟨"RegExp v Flag", "RegExp v flag for extended Unicode support",
    ⟨"112+", "116+", "17+", "112+", "No"⟩, none⟩),
  ("fetch-api", ⟨"Fetch API", "Modern fetch() for network requests",
    ⟨"42+", "39+", "10.1+", "14+", "No"⟩, none⟩),
  ("urlsearchparams", ⟨"URLSearchParams", "URL query string manipulation API",
    ⟨"49+", "29+", "10.1+", "17+", "No"⟩, none⟩),
  ("url-constructor", ⟨"URL Constructor", "URL constructor for URL parsing and manipulation",
    ⟨"32+", "26+", "7+", "12+", "No"⟩, none⟩),
  ("abortcontroller", ⟨"AbortController", "Abort API for cancelling fetch requests",
    ⟨"66+", "57+", "11.1+", "16+", "No"⟩, none⟩)]

/-- Catalogue entries 101-116 of `featureMap` (split for elaboration speed). -/
def featureChunk5 : List (String × FeatureSupport) := [
  ("intersectionobserver", ⟨"IntersectionObserver", "API to observe element visibility changes",
    ⟨"51+", "55+", "12.1+", "15+", "No"⟩, none⟩),
  ("mutationobserver", ⟨"MutationObserver", "API to observe DOM mutations",
    ⟨"26+", "14+", "7+", "12+", "11+"⟩, none⟩),
  ("resizeobserver", ⟨"ResizeObserver", "API to observe element resize events",
    ⟨"64+", "69+", "13.1+", "79+", "No"⟩, none⟩),
  ("array-fromasync", ⟨"Array.fromAsync()", "Create array from async iterable (ES2024)",
    ⟨"121+", "119+", "16.4+", "121+", "No"⟩, none⟩),
  ("string-iswellformed", ⟨"String.isWellFormed()", "Check if string is well-formed Unicode (ES2024)",
    ⟨"111+", "119+", "16.4+", "111+", "No"⟩, none⟩),
  ("string-towellformed", ⟨"String.toWellFormed()", "Convert to well-formed Unicode string (ES2024)",
    ⟨"111+", "119+", "16.4+", "111+", "No"⟩, none⟩),
  ("performance-now", ⟨"performance.now()", "High resolution timestamp API",
    ⟨"24+", "15+", "8+", "12+", "10+"⟩, none⟩),
  ("queuemicrotask", ⟨"queueMicrotask()", "Queue a microtask in the event loop",
    ⟨"71+", "69+", "12.1+", "79+", "No"⟩, none⟩),
  ("crypto-getrandomvalues", ⟨"crypto.getRandomValues()", "Cryptographically secure random values",
    ⟨"11+", "26+", "6.1+", "12+", "11+"⟩, none⟩),
  ("crypto-randomuuid", ⟨"crypto.randomUUID()", "Generate cryptographically secure UUIDs",
    ⟨"92+", "95+", "15.4+", "92+", "No"⟩, none⟩),
  ("typedarray-at", ⟨"TypedArray.at()", "Array.at() method for TypedArrays",
    ⟨"92+", "90+", "15.4+", "92+", "No"⟩, none⟩),
  ("typedarray-with", ⟨"TypedArray.with()", "Array.with() method for TypedArrays",
    ⟨"110+", "115+", "16+", "110+", "No"⟩, none⟩),
  ("localstorage", ⟨"localStorage", "Local storage web API",
    ⟨"4+", "3.5+", "4+", "12+", "8+"⟩, none⟩),
  ("sessionstorage", ⟨"sessionStorage", "Session storage web API",
    ⟨"5+", "2+", "4+", "12+", "8+"⟩, none⟩),
  ("indexeddb", ⟨"IndexedDB", "Client-side database API",
    ⟨"24+", "16+", "7+", "12+", "10+"⟩, none⟩),
  ("reporterror", ⟨"reportError()", "Report unhandled exceptions to global error handlers",
    ⟨"95+", "93+", "15.4+", "95+", "No"⟩, none⟩)]

/-- The feature catalogue `featureMap` (analyzer.ts lines 48-1332), reproduced
entry for entry as an association list in source order, keys unique. -/
def featureList : List (String × FeatureSupport) :=
  featureChunk0 ++ featureChunk1 ++ featureChunk2 ++ featureChunk3 ++ featureChunk4 ++ featureChunk5

/-- Lookup in the catalogue: JavaScript object property access
`featureMap[featureKey]` (analyzer.ts line 1846), `none` for unknown keys. -/
def featureMap (k : String) : Option FeatureSupport :=
  (featureList.find? (fun p => p.1 == k)).map (·.2)

/-- `code.split('\n')` (analyzer.ts line 1340), on source text modelled as a
character list. -/
def splitNL : List Char → List (List Char)
  | [] => [[]]
  | c :: cs =>
    if c = '\n' then [] :: splitNL cs
    else
      match splitNL cs with
      | [] => [[c]]
      | l :: ls => (c :: l) :: ls

/-- `contextLines.join('\n')` (analyzer.ts line 1368). -/
def joinNL : List (List Char) → List Char
  | [] => []
  | [l] => l
  | l :: ls => l ++ '\n' :: joinNL ls

/-- The offset-to-line scanning loop of `extractSnippet` (analyzer.ts lines
1341-1358).  Arguments after the offsets `s`, `e`: the remaining lines, the
loop index `i`, the running character offset `currentPos`, and the mutable
`startLine` and `startCol` cells, with `startLine = 0` meaning "not yet
found" as in the source.  Returns `(startLine, endLine, startCol)`.  The
source guards the `endLine` assignment with `endLine === 0`, but the loop
breaks as soon as `endLine` is set, so that guard is always true when
evaluated and is dropped here.  `startCol` uses truncated subtraction,
which agrees with the JavaScript `start - currentPos` because the
assignment fires only on the first line whose cumulative length exceeds
`start`, where `currentPos ≤ start`. -/
def scanLoop (s e : Nat) : List (List Char) → Nat → Nat → Nat → Nat → Nat × Nat × Nat
  | [], _, _, startLine, startCol => (startLine, 0, startCol)
  | l :: rest, i, currentPos, startLine, startCol =>
    let lineLength := l.length + 1
    let sl := if currentPos + lineLength > s ∧ startLine = 0 then i + 1 else startLine
    let sc := if currentPos + lineLength > s ∧ startLine = 0 then s - currentPos else startCol
    if currentPos + lineLength > e then (sl, i + 1, sc)
    else scanLoop s e rest (i + 1) (currentPos + lineLength) sl sc

/-- `extractSnippet` (analyzer.ts lines 1339-1375): locate the offset span
by line and column and cut a context window of two lines around it.
`Math.max(0, startLine - 3)` and the `slice` bounds are expressed with
truncated subtraction, which agrees with the JavaScript arithmetic. -/
def extractSnippet (code : List Char) (s e : Nat) : CodeSnippet :=
  let lines := splitNL code
  let r := scanLoop s e lines 0 0 0 0
  let startLine := r.1
  let endLine := r.2.1
  let startCol := r.2.2
  let contextStart := startLine - 3
  let contextEnd := min lines.length (endLine + 2)
  let contextLines := (lines.drop contextStart).take (contextEnd - contextStart)
  { text := ⟨joinNL contextLines⟩
    startLine := contextStart + 1
    matchLine := startLine
    matchCol := startCol
    matchLength := e - s
    matchText := ⟨(code.drop s).take (e - s)⟩ }

/-- The `block.type` values that can appear on a Babel scope chain for the
node fragment modelled here.  Per `isScope` in @babel/types, a
`BlockStatement` that is the body of a function is not a scope, so function
bodies never contribute a `blockStatement` entry. -/
inductive ScopeBlockTy where
  | program
  | functionDeclaration
  | functionExpression
  | arrowFunctionExpression
  | objectMethod
  | classMethod
  | blockStatement
deriving DecidableEq, Repr

/-- The while-loop of the `AwaitExpression` visitor (analyzer.ts lines
1456-1467): walk a scope chain outward; meeting a `Program` block first
leaves `isTopLevel` true, meeting one of the five listed function-like
block types first makes it false, any other scope block is skipped, and
running out of scopes leaves it true. -/
def isTopLevelWalk : List ScopeBlockTy → Bool
  | [] => true
  | t :: rest =>
    if t = .program then true
    else if t ∈ [ScopeBlockTy.functionDeclaration, .functionExpression,
        .arrowFunctionExpression, .objectMethod, .classMethod] then false
    else isTopLevelWalk rest

/-- The fragment of the Babel node language consumed by the modelled
visitors.  Each constructor mirrors one Babel node type; `s` and `e` are
the node's `start` and `end` character offsets where the visitors use
them. -/
inductive Node where
  | program (body : List Node)
  | variableDeclaration (kind : String) (declarations : List Node) (s e : Nat)
  | functionDeclaration (isAsync isGenerator : Bool) (params : List Node) (body : List Node) (s e : Nat)
  | functionExpression (isAsync isGenerator : Bool) (params : List Node) (body : List Node) (s e : Nat)
  | arrowFunctionExpression (isAsync : Bool) (params : List Node) (body : List Node) (s e : Nat)
  | objectMethod (params : List Node) (body : List Node) (s e : Nat)
  | classMethod (params : List Node) (body : List Node) (s e : Nat)
  | blockStatement (body : List Node)
  | expressionStatement (expression : Node)
  | awaitExpression (argument : Node) (s e : Nat)
  | callExpression (callee : Node) (args : List Node) (s e : Nat)
  | memberExpression (object property : Node) (s e : Nat)
  | identifier (name : String) (s e : Nat)
  | assignmentPattern (s e : Nat)
  | restElement (s e : Nat)
  | exportNamedDeclaration (declaration : List Node)
  | exportDefaultDeclaration (declaration : Node)
  | importDeclaration (hasAttributes hasAssertions : Bool) (s e : Nat)
  | importNode (s e : Nat)
  | numericLiteral (raw : String) (s e : Nat)
  | bigIntLiteral (s e : Nat)


/-- `t.isAssignmentPattern` on a parameter (analyzer.ts lines 1421, 1480,
1496). -/
def isAssignmentPatternNode : Node → Bool
  | .assignmentPattern _ _ => true
  | _ => false

/-- `t.isRestElement` on a parameter (analyzer.ts lines 1425, 1484, 1500). -/
def isRestElementNode : Node → Bool
  | .restElement _ _ => true
  | _ => false

/-- One classifier emission: a feature key with the offset span handed to
`addFeature`, or `none` for the visitors that call `detectedFeatures.add`
directly without extracting a snippet. -/
abbrev FeatureEvent := String × Option (Nat × Nat)

/-- The plain-identifier-callee branch of the `CallExpression` visitor
(analyzer.ts lines 1649-1683), in source order. -/
def callIdentEvents (name : String) (span : Nat × Nat) : List FeatureEvent :=
  (if name = "Symbol" then [("symbol", some span)] else []) ++
  (if name = "structuredClone" then [("structuredclone", some span)] else []) ++
  (if name = "fetch" then [("fetch-api", some span)] else []) ++
  (if name = "queueMicrotask" then [("queuemicrotask", some span)] else []) ++
  (if name = "reportError" then [("reporterror", some span)] else []) ++
  (if name = "AbortController" then [("abortcontroller", some span)] else []) ++
  (if name = "IntersectionObserver" then [("intersectionobserver", some span)] else []) ++
  (if name = "MutationObserver" then [("mutationobserver", some span)] else []) ++
  (if name = "ResizeObserver" then [("resizeobserver", some span)] else []) ++
  (if name = "URL" then [("url-constructor", some span)] else []) ++
  (if name = "URLSearchParams" then [("urlsearchparams", some span)] else [])

/-- The method-name table of the member-callee branch (analyzer.ts lines
1693-1722).  The source is a chain of independent `if (methodName === ...)`
tests; their conditions are mutually exclusive, so the chain is rendered as
a match with one arm per method name, arms in source order. -/
def methodNameEvents (methodName : String) (span : Nat × Nat) : List FeatureEvent :=
  match methodName with
  | "find" => [("array-find", some span)]
  | "findIndex" => [("array-findindex", some span)]
  | "findLast" => [("array-findlast", some span)]
  | "findLastIndex" => [("array-findlastindex", some span)]
  | "at" => [("array-at", some span), ("string-at", some span)]
  | "includes" => [("array-includes", some span), ("string-includes", some span)]
  | "flat" => [("array-flat", some span)]
  | "flatMap" => [("array-flatmap", some span)]
  | "startsWith" => [("string-startswith", some span)]
  | "endsWith" => [("string-endswith", some span)]
  | "repeat" => [("string-repeat", some span)]
  | "padStart" => [("string-padstart", some span)]
  | "padEnd" => [("string-padend", some span)]
  | "replaceAll" => [("string-replaceall", some span)]
  | "matchAll" => [("string-matchall", some span)]
  | "trimStart" => [("string-trimstart", some span)]
  | "trimEnd" => [("string-trimend", some span)]
  | "toReversed" => [("array-toreversed", some span)]
  | "toSorted" => [("array-tosorted", some span)]
  | "toSpliced" => [("array-tospliced", some span)]
  | "with" => [("array-with", some span)]
  | _ => []

/-- The static-method section of the member-callee branch (analyzer.ts
lines 1725-1762), guarded by `t.isIdentifier(object)`.  The per-object and
per-method tests of the source are mutually exclusive and rendered as
nested matches in source order. -/
def staticMethodEvents (objName : Option String) (methodName : String)
    (argCount : Nat) (span : Nat × Nat) : List FeatureEvent :=
  match objName with
  | none => []
  | some oname =>
    match oname with
    | "Array" =>
      match methodName with
      | "from" => [("array-from", some span)]
      | "fromAsync" => [("array-fromasync", some span)]
      | _ => []
    | "Object" =>
      match methodName with
      | "assign" => [("object-assign", some span)]
      | "keys" => [("object-keys", some span)]
      | "values" => [("object-values", some span)]
      | "entries" => [("object-entries", some span)]
      | "fromEntries" => [("object-fromentries", some span)]
      | "hasOwn" => [("object-hasown", some span)]
      | "groupBy" => [("object-groupby", some span)]
      | _ => []
    | "Promise" =>
      match methodName with
      | "allSettled" => [("promise-allsettled", some span)]
      | "any" => [("promise-any", some span)]
      | _ => []
    | "Reflect" => [("reflect", some span)]
    | "JSON" =>
      if methodName = "parse" ∧ argCount ≥ 3 then [("json-parse-reviver", some span)] else []
    | "Atomics" => [("atomics", some span)]
    | "crypto" =>
      match methodName with
      | "getRandomValues" => [("crypto-getrandomvalues", some span)]
      | "randomUUID" => [("crypto-randomuuid", some span)]
      | _ => []
    | "performance" =>
      if methodName = "now" then [("performance-now", some span)] else []
    | _ => []

/-- The trailing ES2024 string-method tests of the member-callee branch
(analyzer.ts lines 1765-1766). -/
def es2024Events (methodName : String) (span : Nat × Nat) : List FeatureEvent :=
  match methodName with
  | "isWellFormed" => [("string-iswellformed", some span)]
  | "toWellFormed" => [("string-towellformed", some span)]
  | _ => []

/-- The trailing typed-array re-tests of `at` and `with` in the
member-callee branch (analyzer.ts lines 1769-1779); these fire in addition
to the earlier `methodNameEvents` entries for the same names. -/
def typedArrayEvents (methodName : String) (span : Nat × Nat) : List FeatureEvent :=
  match methodName with
  | "at" => [("array-at", some span), ("string-at", some span), ("typedarray-at", some span)]
  | "with" => [("array-with", some span), ("typedarray-with", some span)]
  | _ => []

/-- The member-callee branch of the `CallExpression` visitor (analyzer.ts
lines 1686-1781), in source order: the method-name table, the static-method
table for an identifier receiver, the ES2024 string methods, and the
typed-array duplications of `at` and `with`. -/
def callMemberEvents (objName : Option String) (methodName : String)
    (argCount : Nat) (span : Nat × Nat) : List FeatureEvent :=
  methodNameEvents methodName span ++
  staticMethodEvents objName methodName argCount span ++
  es2024Events methodName span ++
  typedArrayEvents methodName span

/-- `t.isIdentifier(n)` paired with `.name` access. -/
def identName : Node → Option String
  | .identifier n _ _ => some n
  | _ => none

/-- The flag and parameter tests shared by the `FunctionDeclaration` and
`FunctionExpression` visitors (analyzer.ts lines 1472-1503). -/
def functionVisitorEvents (isAsync isGenerator : Bool) (params : List Node)
    (s e : Nat) : List FeatureEvent :=
  (if isAsync then [("async-await", some (s, e))] else []) ++
  (if isGenerator then [("generator-function", some (s, e))] else []) ++
  (if params.any isAssignmentPatternNode then [("default-parameters", some (s, e))] else []) ++
  (if params.any isRestElementNode then [("rest-parameters", some (s, e))] else [])

/-- The `ArrowFunctionExpression` visitor (analyzer.ts lines 1418-1428). -/
def arrowVisitorEvents (params : List Node) (s e : Nat) : List FeatureEvent :=
  [("arrow-function", some (s, e))] ++
  (if params.any isAssignmentPatternNode then [("default-parameters", some (s, e))] else []) ++
  (if params.any isRestElementNode then [("rest-parameters", some (s, e))] else [])

/-- The `MemberExpression` visitor (analyzer.ts lines 1784-1801), applied
to the identifier names of the object and property, in source order. -/
def memberVisitorEvents (objName propName : Option String) (span : Nat × Nat) :
    List FeatureEvent :=
  (if objName = some "globalThis" then [("globalthis", some span)] else []) ++
  (if objName = some "import" ∧ propName = some "meta" then [("import-meta", some span)] else []) ++
  (if objName = some "localStorage" then [("localstorage", some span)] else []) ++
  (if objName = some "sessionStorage" then [("sessionstorage", some span)] else []) ++
  (if objName = some "indexedDB" then [("indexeddb", some span)] else [])

mutual
/-- The Babel traversal with the visitor table of `analyzeCode`
(analyzer.ts lines 1417-1841), restricted to the node fragment of `Node`:
each node first yields its visitor emissions, then its children are
traversed, matching the pre-order `enter` traversal of @babel/traverse.
`chain` is the Babel scope chain at the visited node, innermost scope
first, so `path.scope` is its head; a scope-creating node pushes its block
type before its children.  Per Babel `isScope`, the `BlockStatement` body
of a function is not a scope and has no visitor of its own, so function
bodies are stored as their statement lists and traversed under the
function scope itself; an arrow-function body is the statement list of its
block, or a singleton holding its body expression.  An export declaration
child list is empty or a singleton.  The `AwaitExpression`
visitor starts its walk at `path.scope.parent`, the tail of the chain. -/
def classifyNode (chain : List ScopeBlockTy) : Node → List FeatureEvent
  | .program body => classifyList (.program :: chain) body
  | .variableDeclaration kind decls s e =>
    (if kind = "const" then [("const-declaration", some (s, e))] else []) ++
    (if kind = "let" then [("let-declaration", some (s, e))] else []) ++
    classifyList chain decls
  | .functionDeclaration isAsync isGen params body s e =>
    functionVisitorEvents isAsync isGen params s e ++
    classifyList (.functionDeclaration :: chain) params ++
    classifyList (.functionDeclaration :: chain) body
  | .functionExpression isAsync isGen params body s e =>
    functionVisitorEvents isAsync isGen params s e ++
    classifyList (.functionExpression :: chain) params ++
    classifyList (.functionExpression :: chain) body
  | .arrowFunctionExpression _ params body s e =>
    arrowVisitorEvents params s e ++
    classifyList (.arrowFunctionExpression :: chain) params ++
    classifyList (.arrowFunctionExpression :: chain) body
  | .objectMethod params body _ _ =>
    [("method-definition", none)] ++
    classifyList (.objectMethod :: chain) params ++
    classifyList (.objectMethod :: chain) body
  | .classMethod params body _ _ =>
    classifyList (.classMethod :: chain) params ++
    classifyList (.classMethod :: chain) body
  | .blockStatement body => classifyList (.blockStatement :: chain) body
  | .expressionStatement expr => classifyNode chain expr
  | .awaitExpression arg s e =>
    [("async-await", some (s, e))] ++
    (if isTopLevelWalk chain.tail then [("top-level-await", some (s, e))] else []) ++
    classifyNode chain arg
  | .callExpression callee args s e =>
    (match identName callee with
     | some n => callIdentEvents n (s, e)
     | none => []) ++
    (match callee with
     | .memberExpression obj prop _ _ =>
       (match identName prop with
        | some mname => callMemberEvents (identName obj) mname args.length (s, e)
        | none => [])
     | _ => []) ++
    classifyNode chain callee ++ classifyList chain args
  | .memberExpression obj prop s e =>
    memberVisitorEvents (identName obj) (identName prop) (s, e) ++
    classifyNode chain obj ++ classifyNode chain prop
  | .identifier _ _ _ => []
  | .assignmentPattern _ _ => []
  | .restElement s e => [("spread-operator", some (s, e))]
  | .exportNamedDeclaration decl =>
    [("export-statement", none)] ++ classifyList chain decl
  | .exportDefaultDeclaration d =>
    [("export-statement", none)] ++ classifyNode chain d
  | .importDeclaration hasAttributes hasAssertions s e =>
    [("import-statement", none)] ++
    (if hasAttributes then [("import-attributes", some (s, e))] else []) ++
    (if hasAssertions then [("import-assertions", some (s, e))] else [])
  | .importNode _ _ => [("dynamic-import", none)]
  | .numericLiteral raw _ _ =>
    if raw.data.contains '_' then [("numeric-separators", none)] else []
  | .bigIntLiteral _ _ => [("bigint", none)]

/-- Traversal of a child list, left to right. -/
def classifyList (chain : List ScopeBlockTy) : List Node → List FeatureEvent
  | [] => []
  | n :: rest => classifyNode chain n ++ classifyList chain rest
end

/-- JavaScript `Set<string>.add` on `detectedFeatures` (analyzer.ts line
1379): insertion-ordered, repeated keys ignored. -/
def addKey (ks : List String) (k : String) : List String :=
  if k ∈ ks then ks else ks ++ [k]

/-- The `featureSnippets` update of `addFeature` (analyzer.ts lines
1381-1387).  The source keeps a JavaScript `Set<CodeSnippet>`, whose
membership test compares object references; `extractSnippet` allocates a
fresh object on every call, so that test never succeeds and every
submitted snippet is appended to the stored collection. -/
def addSnippet (m : List (String × List CodeSnippet)) (k : String)
    (snip : CodeSnippet) : List (String × List CodeSnippet) :=
  match m with
  | [] => [(k, [snip])]
  | (k', l) :: rest =>
    if k' = k then (k', l ++ [snip]) :: rest else (k', l) :: addSnippet rest k snip

/-- Snippet lookup `featureSnippets.get(featureKey)` with the missing-key
default `[]` of analyzer.ts line 1850. -/
def lookupSnippets (m : List (String × List CodeSnippet)) (k : String) :
    List CodeSnippet :=
  ((m.find? (fun p => p.1 == k)).map (·.2)).getD []

/-- One `addFeature` call (analyzer.ts lines 1378-1388) applied to the
accumulated `(detectedFeatures, featureSnippets)` state; an event without a
span models the bare `detectedFeatures.add(...)` calls. -/
def addFeature (code : List Char)
    (st : List String × List (String × List CodeSnippet)) (ev : FeatureEvent) :
    List String × List (String × List CodeSnippet) :=
  (addKey st.1 ev.1,
   match ev.2 with
   | none => st.2
   | some (s, e) => addSnippet st.2 ev.1 (extractSnippet code s e))

/-- The hashbang pre-check (analyzer.ts lines 1392-1394), performed before
the parse. -/
def hashbangEvents (code : List Char) : List FeatureEvent :=
  match code with
  | '#' :: '!' :: _ => [("hashbang", some (0, 2))]
  | _ => []

/-- Run the whole classification phase: the hashbang check followed by the
tree traversal, folded through `addFeature` in emission order. -/
def runClassifier (code : List Char) (ast : Node) :
    List String × List (String × List CodeSnippet) :=
  (hashbangEvents code ++ classifyNode [] ast).foldl (addFeature code) ([], [])

/-- The result-assembly step of `analyzeCode` (analyzer.ts lines
1844-1857): map each detected key to its catalogue entry spread together
with its snippets, silently dropping keys with no entry. -/
def buildFeatures (detected : List String)
    (snips : List (String × List CodeSnippet)) : List DetectedFeature :=
  detected.filterMap
    (fun k => (featureMap k).map (fun fs => ⟨fs, lookupSnippets snips k⟩))

/-- An exact decimal value `m / 10 ^ exp10`.  Models the JavaScript numbers
produced by `parseFloat` on stripped version strings; on these short
decimal values double-precision comparison and printing agree with the
exact decimal semantics modelled here. -/
structure DecNum where
  m : Nat
  exp10 : Nat
deriving DecidableEq, Repr

/-- Rational value of a `DecNum`. -/
def DecNum.toQ (d : DecNum) : ℚ := (d.m : ℚ) / 10 ^ d.exp10

/-- Binary `Math.max` on decimal values (used pairwise for the variadic
`Math.max(...versions)` of analyzer.ts line 1890). -/
def DecNum.maxD (a b : DecNum) : DecNum :=
  if a.m * 10 ^ b.exp10 ≤ b.m * 10 ^ a.exp10 then b else a

/-- Canonicalise `m / 10 ^ k` by dropping trailing zero fraction digits;
two decimal spellings of one JavaScript number coincide after this. -/
def DecNum.norm : Nat → Nat → DecNum
  | m, 0 => ⟨m, 0⟩
  | m, k + 1 => if m % 10 = 0 then DecNum.norm (m / 10) k else ⟨m, k + 1⟩

/-- Decimal value of a digit list. -/
def digitsToNat (ds : List Char) : Nat :=
  ds.foldl (fun acc c => acc * 10 + (c.toNat - '0'.toNat)) 0

/-- JavaScript `parseFloat` restricted to its use in
`calculateMinimumVersions` (analyzer.ts lines 1879-1881), where the
argument has been stripped to digits and periods: read an optional integer
part, then an optional period and fraction part, stopping at any second
period; yield `none` (`NaN`) when no digit was read. -/
def parseFloatDec (cs : List Char) : Option DecNum :=
  let ip := cs.takeWhile (·.isDigit)
  let rest := cs.drop ip.length
  match rest with
  | '.' :: rest2 =>
    let fp := rest2.takeWhile (·.isDigit)
    if ip.isEmpty ∧ fp.isEmpty then none
    else some (DecNum.norm (digitsToNat ip * 10 ^ fp.length + digitsToNat fp) fp.length)
  | _ => if ip.isEmpty then none else some ⟨digitsToNat ip, 0⟩

/-- `version.replace(/[^0-9.]/g, '')` (analyzer.ts lines 1879 and 1881). -/
def stripNonNumeric (s : String) : List Char :=
  s.data.filter (fun c => c.isDigit || c = '.')

/-- The per-version parsing step of `calculateMinimumVersions` (analyzer.ts
lines 1876-1882): strip, then `parseFloat`.  The two branches of the
source conditional on `includes('*')` perform the identical computation
and are collapsed; the `isNaN` filter of line 1883 corresponds to the
`none` case. -/
def parseVersion (s : String) : Option DecNum :=
  parseFloatDec (stripNonNumeric s)

/-- `Number.prototype.toString` on the nonnegative decimal values occurring
here: integer part, then a period and the zero-padded fraction digits when
the (canonical) fraction is nonzero. -/
def DecNum.render (d : DecNum) : String :=
  if d.exp10 = 0 then ⟨Nat.toDigits 10 d.m⟩
  else
    let ipart := d.m / 10 ^ d.exp10
    let fdigits := Nat.toDigits 10 (d.m % 10 ^ d.exp10)
    ⟨Nat.toDigits 10 ipart ++ '.' ::
      (List.replicate (d.exp10 - fdigits.length) '0' ++ fdigits)⟩

/-- One browser slot of `calculateMinimumVersions` (analyzer.ts lines
1872-1893): drop `"No"` entries, parse the survivors, drop `NaN`s; an
empty survivor list yields `"No"`, otherwise the maximum survivor is
rendered with a trailing `+`. -/
def minimumVersionSlot (versions : List String) : String :=
  let parsed := (versions.filter (fun v => v != "No")).filterMap parseVersion
  match parsed with
  | [] => "No"
  | v :: vs => (vs.foldl DecNum.maxD v).render ++ "+"

/-- `calculateMinimumVersions` (analyzer.ts lines 1868-1902), slot by
slot over the five browsers. -/
def calculateMinimumVersions (features : List FeatureSupport) : SupportRecord :=
  { chrome := minimumVersionSlot (features.map (·.support.chrome))
    firefox := minimumVersionSlot (features.map (·.support.firefox))
    safari := minimumVersionSlot (features.map (·.support.safari))
    edge := minimumVersionSlot (features.map (·.support.edge))
    ie := minimumVersionSlot (features.map (·.support.ie)) }

/-- The successful branch of `analyzeCode` (analyzer.ts lines 1390-1914):
hashbang check, traversal, feature assembly, summary counts
(lines 1859-1865 and 1906-1913) and the minimum-version matrix. -/
def analyzeOk (code : List Char) (ast : Node) : AnalysisResult :=
  let st := runClassifier code ast
  let features := buildFeatures st.1 st.2
  let modernFeatures :=
    (features.filter (fun f => f.toFeatureSupport.support.ie == "No" ||
      f.toFeatureSupport.support.ie.data.contains '*')).length
  let legacySupport := features.all (fun f => f.toFeatureSupport.support.ie != "No")
  { features := features
    summary :=
      { totalFeatures := features.length
        modernFeatures := modernFeatures
        legacySupport := legacySupport }
    minimumVersions := calculateMinimumVersions (features.map (·.toFeatureSupport)) }

/-- `analyzeCode` (analyzer.ts lines 1334-1919).  The external Babel parse
is an environment parameter: its outcome for the given source text is
either a tree or the diagnostic message it throws with; a throw reaches
the catch block, which wraps the message (line 1917), and no partial
result is produced. -/
def analyzeCode (code : List Char) (parseOutcome : Except String Node) :
    Except String AnalysisResult :=
  match parseOutcome with
  | .error msg => .error ("Failed to parse JavaScript code: " ++ msg)
  | .ok ast => .ok (analyzeOk code ast)

/-- Source text `arr.at(0)`. -/
def atCallCode : List Char := "arr.at(0)".data

/-- The parse tree of `arr.at(0)`: a call whose callee is the member
expression `arr.at`. -/
def atCallAst : Node :=
  .program [.expressionStatement (.callExpression
    (.memberExpression (.identifier "arr" 0 3) (.identifier "at" 4 6) 0 6)
    [.numericLiteral "0" 7 8] 0 9)]

/-- Source text `async function f() { await g(); }`. -/
def asyncFnCode : List Char := "async function f() { await g(); }".data

/-- The parse tree of `async function f() { await g(); }`: an async
function declaration whose body block holds one awaited call.  The body
block is not a Babel scope, so the scope chain at the await is the
function scope followed by the program scope. -/
def asyncFnAst : Node :=
  .program [.functionDeclaration true false []
    [.expressionStatement (.awaitExpression
      (.callExpression (.identifier "g" 27 28) [] 27 30) 21 30)] 0 33]

/-- Source text `await g();`. -/
def topAwaitCode : List Char := "await g();".data

/-- The parse tree of `await g();`: an awaited call at document top
level. -/
def topAwaitAst : Node :=
  .program [.expressionStatement (.awaitExpression
    (.callExpression (.identifier "g" 6 7) [] 6 9) 0 9)]

/-- C1: the claim states that the per-key evidence collection is a set
deduplicated by structural equality of all Evidence fields, so the same
offset span submitted twice for one feature key is stored once.  The code
violates this: for the input `arr.at(0)` the CallExpression visitor
submits the span (0, 9) for the key "array-at" twice (analyzer.ts lines
1700 and 1771), the backing JavaScript `Set<CodeSnippet>` compares object
references and `extractSnippet` allocates a fresh object per call, so the
returned Array.at() feature carries two structurally identical snippets. -/
theorem c1_duplicate_evidence_stored :
    ∃ df ∈ (analyzeOk atCallCode atCallAst).features,
      df.toFeatureSupport.feature = "Array.at()" ∧
      df.codeSnippets = [extractSnippet atCallCode 0 9, extractSnippet atCallCode 0 9] := by
  decide

/-- C2: the claim states that for `async function f() { await g(); }` the
top-level-await feature is NOT detected because the await sits inside a
function boundary.  The code does detect it: the await's `path.scope` is
already the function scope (a function body block is not a Babel scope),
the walk of analyzer.ts line 1456 starts at `path.scope.parent`, which is
the Program scope, so `isTopLevel` stays true.  The async-await key is
detected as the claim says; the top-level-await key is detected contrary
to the claim. -/
theorem c2_async_fn_yields_top_level_await :
    "async-await" ∈ (runClassifier asyncFnCode asyncFnAst).1 ∧
    "top-level-await" ∈ (runClassifier asyncFnCode asyncFnAst).1 ∧
    ∃ df ∈ (analyzeOk asyncFnCode asyncFnAst).features,
      df.toFeatureSupport.feature = "Top-level Await" := by
  decide

/-- C3: the claim states the top-level-await feature is recorded iff no
function-like ancestor lies between the await and the document root, and
that `await g();` at top level yields both the async-await and the
top-level-await features.  The scenario half holds, but the
if-and-only-if fails on the code: in `async function f() { await g(); }`
the await has a function-declaration ancestor, yet the scope walk starts
at `path.scope.parent` (analyzer.ts line 1456), skipping the function
scope the await directly sits in, and records top-level-await anyway. -/
theorem c3_top_level_await_walk_divergence :
    ("async-await" ∈ (runClassifier topAwaitCode topAwaitAst).1 ∧
     "top-level-await" ∈ (runClassifier topAwaitCode topAwaitAst).1) ∧
    "top-level-await" ∈ (runClassifier asyncFnCode asyncFnAst).1 := by
  decide

/-- C6: every feature in the returned list is a catalogue entry: the
assembly step maps detected keys through the catalogue and silently drops
keys without an entry, so each returned DetectedFeature spreads some
catalogue descriptor. -/
theorem c6_features_exist_in_catalogue (code : List Char) (ast : Node) :
    ∀ df ∈ (analyzeOk code ast).features,
      ∃ k, featureMap k = some df.toFeatureSupport := by
  intro df hdf
  have h : df ∈ buildFeatures (runClassifier code ast).1 (runClassifier code ast).2 := hdf
  rw [buildFeatures, List.mem_filterMap] at h
  obtain ⟨k, _, hk⟩ := h
  rw [Option.map_eq_some'] at hk
  obtain ⟨fs, hfs, hdf'⟩ := hk
  exact ⟨k, by rw [hfs, ← hdf']⟩

/-- Source text `const x = 1;`. -/
def constCode : List Char := "const x = 1;".data

/-- The parse tree of `const x = 1;` as far as the modelled visitors are
concerned: one `const` variable declaration. -/
def constAst : Node := .program [.variableDeclaration "const" [] 0 12]

/-- The one DetectedFeature produced for `const x = 1;`. -/
def constDetected : DetectedFeature :=
  ⟨⟨"Const Declaration", "Block-scoped constant declarations",
    ⟨"49+", "36+", "10+", "12+", "11*"⟩, some "IE11 has partial support"⟩,
   [extractSnippet constCode 0 12]⟩

/-- Witness for C6 at the concrete input `const x = 1;`. -/
theorem c6_features_exist_in_catalogue_witness :
    constDetected ∈ (analyzeOk constCode constAst).features ∧
    ∃ k, featureMap k = some constDetected.toFeatureSupport :=
  ⟨by decide, c6_features_exist_in_catalogue constCode constAst constDetected (by decide)⟩

/-- C7: when the external parser fails with a diagnostic message, the
analysis surfaces exactly the parse-failure error wrapping that message
and produces no result value. -/
theorem c7_parse_failure_wraps_message (code : List Char) (msg : String) :
    analyzeCode code (.error msg) =
      .error ("Failed to parse JavaScript code: " ++ msg) := rfl

/-- C8: `totalFeatures` counts the detected features; `modernFeatures`
counts those whose IE slot is "No" or contains the partial-support marker;
`legacySupport` is true exactly when no feature's IE slot is "No". -/
theorem c8_summary_counts (code : List Char) (ast : Node) :
    (analyzeOk code ast).summary.totalFeatures =
      (analyzeOk code ast).features.length ∧
    (analyzeOk code ast).summary.modernFeatures =
      ((analyzeOk code ast).features.filter (fun df =>
        decide (df.toFeatureSupport.support.ie = "No" ∨
          '*' ∈ df.toFeatureSupport.support.ie.data))).length ∧
    ((analyzeOk code ast).summary.legacySupport = true ↔
      ∀ df ∈ (analyzeOk code ast).features,
        df.toFeatureSupport.support.ie ≠ "No") := by
  refine ⟨rfl, ?_, ?_⟩
  · show ((analyzeOk code ast).features.filter _).length = _
    congr 1
    apply List.filter_congr
    intro df _
    simp [List.contains_iff_exists_mem_beq, beq_iff_eq, decide_eq_true_eq]
    by_cases h : df.toFeatureSupport.support.ie = "No" <;> simp [h]
  · show (List.all _ _ = true) ↔ _
    rw [List.all_eq_true]
    simp only [bne_iff_ne]
    exact Iff.rfl

/-- C10: when no classification rule fires (no hashbang and no visitor
emission), the analysis returns the empty feature list, zero counts, a
vacuously true legacy flag and "No" in all five minimum-version slots. -/
theorem c10_empty_detection (code : List Char) (ast : Node)
    (h : hashbangEvents code ++ classifyNode [] ast = []) :
    analyzeOk code ast = ⟨[], ⟨0, 0, true⟩, ⟨"No", "No", "No", "No", "No"⟩⟩ := by
  have hrun : runClassifier code ast = ([], []) := by
    rw [runClassifier, h]
    rfl
  rw [analyzeOk, hrun]
  rfl

/-- Witness for C10 at the empty source text with an empty program. -/
theorem c10_empty_detection_witness :
    (hashbangEvents [] ++ classifyNode [] (.program []) = []) ∧
    analyzeOk [] (.program []) = ⟨[], ⟨0, 0, true⟩, ⟨"No", "No", "No", "No", "No"⟩⟩ :=
  ⟨rfl, c10_empty_detection [] (.program []) rfl⟩

/-- Membership in a conditional singleton-or-empty list. -/
theorem mem_ite_nil_iff {c : Prop} [Decidable c] {l : List FeatureEvent}
    {ev : FeatureEvent} : ev ∈ (if c then l else []) ↔ c ∧ ev ∈ l := by
  split <;> simp_all

/-- An event drawn from a conditional singleton carries that singleton's
span. -/
theorem spanful_ite {c : Prop} [Decidable c] {k : String} {sp : Nat × Nat}
    {ev : FeatureEvent} (h : ev ∈ (if c then [(k, some sp)] else [])) :
    ev.2 = some sp := by
  rcases mem_ite_nil_iff.1 h with ⟨-, h'⟩
  rw [List.mem_singleton] at h'
  subst h'
  rfl

/-- Every emission of the identifier-callee table carries the call span. -/
theorem callIdentEvents_spanful {name : String} {sp : Nat × Nat}
    {ev : FeatureEvent} (h : ev ∈ callIdentEvents name sp) : ev.2 = some sp := by
  simp only [callIdentEvents, List.mem_append] at h
  rcases h with ((((((((((h | h) | h) | h) | h) | h) | h) | h) | h) | h) | h) <;>
    exact spanful_ite h

/-- Every emission of the method-name table carries the call span. -/
theorem methodNameEvents_spanful {m : String} {sp : Nat × Nat}
    {ev : FeatureEvent} (h : ev ∈ methodNameEvents m sp) : ev.2 = some sp := by
  unfold methodNameEvents at h
  split at h <;> simp_all
  all_goals (rcases h with rfl | rfl <;> rfl)

/-- Every emission of the static-method table carries the call span. -/
theorem staticMethodEvents_spanful {o : Option String} {m : String} {a : Nat}
    {sp : Nat × Nat} {ev : FeatureEvent}
    (h : ev ∈ staticMethodEvents o m a sp) : ev.2 = some sp := by
  unfold staticMethodEvents at h
  repeat' split at h
  all_goals simp_all

/-- Every emission of the ES2024 string-method tests carries the call
span. -/
theorem es2024Events_spanful {m : String} {sp : Nat × Nat} {ev : FeatureEvent}
    (h : ev ∈ es2024Events m sp) : ev.2 = some sp := by
  unfold es2024Events at h
  split at h <;> simp_all

/-- Every emission of the typed-array re-tests carries the call span. -/
theorem typedArrayEvents_spanful {m : String} {sp : Nat × Nat} {ev : FeatureEvent}
    (h : ev ∈ typedArrayEvents m sp) : ev.2 = some sp := by
  unfold typedArrayEvents at h
  split at h <;> simp_all
  all_goals (rcases h with rfl | rfl | rfl <;> rfl)

/-- Every emission of the member-callee branch carries the call span. -/
theorem callMemberEvents_spanful {o : Option String} {m : String} {a : Nat}
    {sp : Nat × Nat} {ev : FeatureEvent}
    (h : ev ∈ callMemberEvents o m a sp) : ev.2 = some sp := by
  simp only [callMemberEvents, List.mem_append] at h
  rcases h with ((h | h) | h) | h
  · exact methodNameEvents_spanful h
  · exact staticMethodEvents_spanful h
  · exact es2024Events_spanful h
  · exact typedArrayEvents_spanful h

/-- Every emission of the function-flag tests carries the function span. -/
theorem functionVisitorEvents_spanful {a g : Bool} {ps : List Node} {s e : Nat}
    {ev : FeatureEvent} (h : ev ∈ functionVisitorEvents a g ps s e) :
    ev.2 = some (s, e) := by
  simp only [functionVisitorEvents, List.mem_append] at h
  rcases h with ((h | h) | h) | h <;> exact spanful_ite h

/-- Every emission of the arrow-function visitor carries the arrow span. -/
theorem arrowVisitorEvents_spanful {ps : List Node} {s e : Nat}
    {ev : FeatureEvent} (h : ev ∈ arrowVisitorEvents ps s e) :
    ev.2 = some (s, e) := by
  simp only [arrowVisitorEvents, List.mem_append, List.mem_singleton] at h
  rcases h with (h | h) | h
  · subst h; rfl
  · exact spanful_ite h
  · exact spanful_ite h

/-- Every emission of the member-expression visitor carries the member
span. -/
theorem memberVisitorEvents_spanful {o p : Option String} {sp : Nat × Nat}
    {ev : FeatureEvent} (h : ev ∈ memberVisitorEvents o p sp) :
    ev.2 = some sp := by
  simp only [memberVisitorEvents, List.mem_append] at h
  rcases h with (((h | h) | h) | h) | h <;> exact spanful_ite h

/-- The feature keys that the source records with a bare
`detectedFeatures.add`, without extracting a snippet (analyzer.ts lines
1615, 1618, 1631, 1634, 1637, 1642, 1646). -/
def bareKeys : List String :=
  ["method-definition", "export-statement", "import-statement",
   "dynamic-import", "numeric-separators", "bigint"]

mutual
/-- Spanless emissions of the tree traversal are confined to the bare
`detectedFeatures.add` keys, node case. -/
theorem spanlessNode : ∀ (chain : List ScopeBlockTy) (n : Node),
    ∀ ev ∈ classifyNode chain n, ev.2 = none → ev.1 ∈ bareKeys
  | chain, .program body => by
    intro ev hev hn
    simp only [classifyNode] at hev
    exact spanlessList _ body ev hev hn
  | chain, .variableDeclaration kind decls s e => by
    intro ev hev hn
    simp only [classifyNode, List.mem_append] at hev
    rcases hev with (h | h) | h
    · rw [spanful_ite h] at hn; cases hn
    · rw [spanful_ite h] at hn; cases hn
    · exact spanlessList chain decls ev h hn
  | chain, .functionDeclaration isAsync isGen params body s e => by
    intro ev hev hn
    simp only [classifyNode, List.mem_append] at hev
    rcases hev with (h | h) | h
    · rw [functionVisitorEvents_spanful h] at hn; cases hn
    · exact spanlessList _ params ev h hn
    · exact spanlessList _ body ev h hn
  | chain, .functionExpression isAsync isGen params body s e => by
    intro ev hev hn
    simp only [classifyNode, List.mem_append] at hev
    rcases hev with (h | h) | h
    · rw [functionVisitorEvents_spanful h] at hn; cases hn
    · exact spanlessList _ params ev h hn
    · exact spanlessList _ body ev h hn
  | chain, .arrowFunctionExpression isAsync params body s e => by
    intro ev hev hn
    simp only [classifyNode, List.mem_append] at hev
    rcases hev with (h | h) | h
    · rw [arrowVisitorEvents_spanful h] at hn; cases hn
    · exact spanlessList _ params ev h hn
    · exact spanlessList _ body ev h hn
  | chain, .objectMethod params body s e => by
    intro ev hev hn
    simp only [classifyNode, List.mem_append, List.mem_singleton] at hev
    rcases hev with (h | h) | h
    · subst h; simp [bareKeys]
    · exact spanlessList _ params ev h hn
    · exact spanlessList _ body ev h hn
  | chain, .classMethod params body s e => by
    intro ev hev hn
    simp only [classifyNode, List.mem_append] at hev
    rcases hev with h | h
    · exact spanlessList _ params ev h hn
    · exact spanlessList _ body ev h hn
  | chain, .blockStatement body => by
    intro ev hev hn
    simp only [classifyNode] at hev
    exact spanlessList _ body ev hev hn
  | chain, .expressionStatement expr => by
    intro ev hev hn
    simp only [classifyNode] at hev
    exact spanlessNode chain expr ev hev hn
  | chain, .awaitExpression arg s e => by
    intro ev hev hn
    simp only [classifyNode, List.mem_append, List.mem_singleton] at hev
    rcases hev with (h | h) | h
    · subst h; cases hn
    · rw [spanful_ite h] at hn; cases hn
    · exact spanlessNode chain arg ev h hn
  | chain, .callExpression callee args s e => by
    intro ev hev hn
    simp only [classifyNode, List.mem_append] at hev
    rcases hev with ((h | h) | h) | h
    · split at h
      · rw [callIdentEvents_spanful h] at hn; cases hn
      · cases h
    · split at h
      · split at h
        · rw [callMemberEvents_spanful h] at hn; cases hn
        · cases h
      · cases h
    · exact spanlessNode chain callee ev h hn
    · exact spanlessList chain args ev h hn
  | chain, .memberExpression obj prop s e => by
    intro ev hev hn
    simp only [classifyNode, List.mem_append] at hev
    rcases hev with (h | h) | h
    · rw [memberVisitorEvents_spanful h] at hn; cases hn
    · exact spanlessNode chain obj ev h hn
    · exact spanlessNode chain prop ev h hn
  | chain, .identifier name s e => by
    intro ev hev
    simp only [classifyNode] at hev
    cases hev
  | chain, .assignmentPattern s e => by
    intro ev hev
    simp only [classifyNode] at hev
    cases hev
  | chain, .restElement s e => by
    intro ev hev hn
    simp only [classifyNode, List.mem_singleton] at hev
    subst hev; cases hn
  | chain, .exportNamedDeclaration decl => by
    intro ev hev hn
    simp only [classifyNode, List.mem_append, List.mem_singleton] at hev
    rcases hev with h | h
    · subst h; simp [bareKeys]
    · exact spanlessList chain decl ev h hn
  | chain, .exportDefaultDeclaration d => by
    intro ev hev hn
    simp only [classifyNode, List.mem_append, List.mem_singleton] at hev
    rcases hev with h | h
    · subst h; simp [bareKeys]
    · exact spanlessNode chain d ev h hn
  | chain, .importDeclaration hasAttr hasAssert s e => by
    intro ev hev hn
    simp only [classifyNode, List.mem_append, List.mem_singleton] at hev
    rcases hev with (h | h) | h
    · subst h; simp [bareKeys]
    · rw [spanful_ite h] at hn; cases hn
    · rw [spanful_ite h] at hn; cases hn
  | chain, .importNode s e => by
    intro ev hev _
    simp only [classifyNode, List.mem_singleton] at hev
    subst hev; simp [bareKeys]
  | chain, .numericLiteral raw s e => by
    intro ev hev _
    simp only [classifyNode] at hev
    rcases mem_ite_nil_iff.1 hev with ⟨-, h⟩
    rw [List.mem_singleton] at h
    subst h; simp [bareKeys]
  | chain, .bigIntLiteral s e => by
    intro ev hev _
    simp only [classifyNode, List.mem_singleton] at hev
    subst hev; simp [bareKeys]

/-- Spanless emissions of the tree traversal are confined to the bare
`detectedFeatures.add` keys, child-list case. -/
theorem spanlessList : ∀ (chain : List ScopeBlockTy) (ns : List Node),
    ∀ ev ∈ classifyList chain ns, ev.2 = none → ev.1 ∈ bareKeys
  | chain, [] => by
    intro ev hev
    simp only [classifyList] at hev
    cases hev
  | chain, n :: rest => by
    intro ev hev hn
    simp only [classifyList, List.mem_append] at hev
    rcases hev with h | h
    · exact spanlessNode chain n ev h hn
    · exact spanlessList chain rest ev h hn
end

/-- Source text `export const a = 1;`. -/
def exportCode : List Char := "export const a = 1;".data

/-- The parse tree of `export const a = 1;`: an export of a const
declaration. -/
def exportAst : Node :=
  .program [.exportNamedDeclaration [.variableDeclaration "const" [] 7 19]]

/-- C4, counterexample: the claim states that every classification rule
calls the Snippet Extractor on match, so every recorded feature key has at
least one Evidence.  The `ExportNamedDeclaration` visitor (analyzer.ts
line 1631) records "export-statement" with a bare `detectedFeatures.add`
and no snippet: for `export const a = 1;` the key is recorded and the
returned feature carries an empty snippet list. -/
theorem c4_export_recorded_without_evidence :
    "export-statement" ∈ (runClassifier exportCode exportAst).1 ∧
    ∃ df ∈ (analyzeOk exportCode exportAst).features,
      df.toFeatureSupport.feature = "ES6 Modules (export)" ∧
      df.codeSnippets = [] := by
  decide

/-- C4, amended: every rule that emits an offset span merges the extracted
snippet into the evidence of its key, but six visitors record their keys
with no evidence at all; hence an emission without a span carries one of
exactly those six keys ("method-definition", "export-statement",
"import-statement", "dynamic-import", "numeric-separators", "bigint"), and
every other key is always recorded together with a snippet span. -/
theorem c4_spanless_events_are_bare_keys (code : List Char) (ast : Node) :
    ∀ ev ∈ hashbangEvents code ++ classifyNode [] ast, ev.2 = none →
      ev.1 ∈ bareKeys := by
  intro ev hev hn
  rcases List.mem_append.1 hev with h | h
  · unfold hashbangEvents at h
    split at h
    · rw [List.mem_singleton] at h
      subst h
      cases hn
    · cases h
  · exact spanlessNode [] ast ev h hn

/-- Witness for the amended C4 at the `export const a = 1;` input. -/
theorem c4_spanless_events_are_bare_keys_witness :
    (("export-statement", (none : Option (Nat × Nat))) ∈
      hashbangEvents exportCode ++ classifyNode [] exportAst) ∧
    "export-statement" ∈ bareKeys :=
  ⟨by decide, c4_spanless_events_are_bare_keys exportCode exportAst
    ("export-statement", none) (by decide) rfl⟩

/-- The five browser slots of the matrix. -/
inductive Browser where
  | chrome
  | firefox
  | safari
  | edge
  | ie
deriving DecidableEq, Repr

/-- Projection of a support record onto one browser slot. -/
def browserSlot (b : Browser) (r : SupportRecord) : String :=
  match b with
  | .chrome => r.chrome
  | .firefox => r.firefox
  | .safari => r.safari
  | .edge => r.edge
  | .ie => r.ie

/-- The survivor list of one slot of `calculateMinimumVersions`: the slot
strings with `"No"` removed, parsed, `NaN`s removed. -/
def slotSurvivors (features : List FeatureSupport) (b : Browser) : List DecNum :=
  ((features.map (fun f => browserSlot b f.support)).filter
    (fun v => v != "No")).filterMap parseVersion

/-- `calculateMinimumVersions` computes each slot with
`minimumVersionSlot` on that slot's strings. -/
theorem calculateMinimumVersions_slot (features : List FeatureSupport) (b : Browser) :
    browserSlot b (calculateMinimumVersions features) =
      minimumVersionSlot (features.map (fun f => browserSlot b f.support)) := by
  cases b <;> rfl

/-- Comparison of decimal values agrees with their rational values. -/
theorem DecNum.maxD_le_iff (a b : DecNum) :
    a.m * 10 ^ b.exp10 ≤ b.m * 10 ^ a.exp10 ↔ a.toQ ≤ b.toQ := by
  rw [DecNum.toQ, DecNum.toQ, div_le_div_iff₀ (by positivity) (by positivity)]
  constructor <;> intro h <;> exact_mod_cast h

/-- The fold of binary `Math.max` picks a member of the list. -/
theorem foldl_maxD_mem (v : DecNum) (vs : List DecNum) :
    vs.foldl DecNum.maxD v ∈ v :: vs := by
  induction vs generalizing v with
  | nil => exact List.mem_singleton.2 rfl
  | cons x xs ih =>
    rw [List.foldl_cons]
    have h := ih (DecNum.maxD v x)
    have hx : DecNum.maxD v x = v ∨ DecNum.maxD v x = x := by
      rw [DecNum.maxD]
      split
      · exact Or.inr rfl
      · exact Or.inl rfl
    rcases List.mem_cons.1 h with h' | h'
    · rw [h']
      rcases hx with h'' | h'' <;> rw [h'']
      · exact List.mem_cons_self ..
      · exact List.mem_cons_of_mem _ (List.mem_cons_self ..)
    · exact List.mem_cons_of_mem _ (List.mem_cons_of_mem _ h')

/-- The fold of binary `Math.max` bounds every list member from above, in
rational value. -/
theorem foldl_maxD_le (v : DecNum) (vs : List DecNum) :
    ∀ x ∈ v :: vs, x.toQ ≤ (vs.foldl DecNum.maxD v).toQ := by
  induction vs generalizing v with
  | nil =>
    intro x hx
    rw [List.mem_singleton] at hx
    subst hx
    exact le_refl _
  | cons y ys ih =>
    intro x hx
    have hmax : v.toQ ≤ (DecNum.maxD v y).toQ ∧ y.toQ ≤ (DecNum.maxD v y).toQ := by
      rw [DecNum.maxD]
      split
      · exact ⟨(DecNum.maxD_le_iff v y).1 (by assumption), le_refl _⟩
      · refine ⟨le_refl _, le_of_lt ?_⟩
        have := lt_of_not_le (by assumption : ¬ v.m * 10 ^ y.exp10 ≤ y.m * 10 ^ v.exp10)
        exact lt_of_not_le (fun hc => absurd ((DecNum.maxD_le_iff v y).2 hc) (by assumption))
    rcases List.mem_cons.1 hx with h | h
    · subst h
      calc x.toQ ≤ (DecNum.maxD x y).toQ := hmax.1
        _ ≤ _ := ih (DecNum.maxD x y) _ (List.mem_cons_self ..)
    · rcases List.mem_cons.1 h with h' | h'
      · subst h'
        calc x.toQ ≤ (DecNum.maxD v x).toQ := hmax.2
          _ ≤ _ := ih (DecNum.maxD v x) _ (List.mem_cons_self ..)
      · exact ih (DecNum.maxD v y) x (List.mem_cons_of_mem _ h')

/-- One version string parses and reprints stably: if it parses to a
decimal value, rendering that value with the trailing `+` parses back to
the same value. -/
def versionRoundtrips (s : String) : Bool :=
  match parseVersion s with
  | none => true
  | some d => parseVersion (d.render ++ "+") == some d

/-- Every version string of every catalogue entry roundtrips. -/
theorem featureList_roundtrips :
    featureList.all (fun p => versionRoundtrips p.2.support.chrome &&
      versionRoundtrips p.2.support.firefox &&
      versionRoundtrips p.2.support.safari &&
      versionRoundtrips p.2.support.edge &&
      versionRoundtrips p.2.support.ie) = true := by
  decide

/-- Catalogue version strings roundtrip through parse and render. -/
theorem catalogue_slot_roundtrips (f : FeatureSupport) (b : Browser)
    (hcat : ∃ k, featureMap k = some f) (d : DecNum)
    (hp : parseVersion (browserSlot b f.support) = some d) :
    parseVersion (d.render ++ "+") = some d := by
  obtain ⟨k, hk⟩ := hcat
  rw [featureMap] at hk
  rw [Option.map_eq_some'] at hk
  obtain ⟨p, hfind, hp2⟩ := hk
  have hmem : p ∈ featureList := List.mem_of_find?_eq_some hfind
  have hall := List.all_eq_true.1 featureList_roundtrips p hmem
  simp only [Bool.and_eq_true] at hall
  have hslot : versionRoundtrips (browserSlot b f.support) = true := by
    cases b <;>
      (rw [← hp2] at *
       first
       | exact hall.1.1.1.1
       | exact hall.1.1.1.2
       | exact hall.1.1.2
       | exact hall.1.2
       | exact hall.2)
  rw [versionRoundtrips, hp] at hslot
  exact eq_of_beq hslot

/-- C5: for every feature list drawn from the catalogue and every browser
slot, if the minimum-version slot is not "No" then its numeric value is
the maximum of the surviving parsed slot values of the features, i.e. the
slot's numeric prefix equals the maximum numeric prefix across features. -/
theorem c5_minimum_version_is_max (features : List FeatureSupport) (b : Browser)
    (hcat : ∀ f ∈ features, ∃ k, featureMap k = some f)
    (hno : browserSlot b (calculateMinimumVersions features) ≠ "No") :
    ∃ m ∈ slotSurvivors features b,
      (∀ x ∈ slotSurvivors features b, x.toQ ≤ m.toQ) ∧
      parseVersion (browserSlot b (calculateMinimumVersions features)) = some m := by
  rw [calculateMinimumVersions_slot] at hno ⊢
  rw [minimumVersionSlot] at hno ⊢
  have hsurv : slotSurvivors features b =
      ((features.map (fun f => browserSlot b f.support)).filter
        (fun v => v != "No")).filterMap parseVersion := rfl
  rcases hL : ((features.map (fun f => browserSlot b f.support)).filter
      (fun v => v != "No")).filterMap parseVersion with _ | ⟨v, vs⟩
  · rw [hL] at hno
    exact absurd rfl hno
  · rw [hL] at hno ⊢
    refine ⟨vs.foldl DecNum.maxD v, ?_, ?_, ?_⟩
    · rw [hsurv, hL]
      exact foldl_maxD_mem v vs
    · rw [hsurv, hL]
      exact foldl_maxD_le v vs
    · have hmem : vs.foldl DecNum.maxD v ∈ v :: vs := foldl_maxD_mem v vs
      rw [← hL] at hmem
      rw [List.mem_filterMap] at hmem
      obtain ⟨s0, hs0, hps0⟩ := hmem
      rw [List.mem_filter] at hs0
      obtain ⟨hs0m, -⟩ := hs0
      rw [List.mem_map] at hs0m
      obtain ⟨f, hf, hfs⟩ := hs0m
      exact catalogue_slot_roundtrips f b (hcat f hf) _ (hfs ▸ hps0)

/-- Witness for C5: the single arrow-function feature, chrome slot. -/
theorem c5_minimum_version_is_max_witness :
    (∀ f ∈ [(⟨"Arrow Functions", "Arrow function expressions (=>)",
        ⟨"45+", "22+", "10+", "12+", "No"⟩, none⟩ : FeatureSupport)],
      ∃ k, featureMap k = some f) ∧
    (browserSlot .chrome (calculateMinimumVersions
      [⟨"Arrow Functions", "Arrow function expressions (=>)",
        ⟨"45+", "22+", "10+", "12+", "No"⟩, none⟩]) ≠ "No") ∧
    ∃ m ∈ slotSurvivors
        [⟨"Arrow Functions", "Arrow function expressions (=>)",
          ⟨"45+", "22+", "10+", "12+", "No"⟩, none⟩] .chrome,
      (∀ x ∈ slotSurvivors
          [⟨"Arrow Functions", "Arrow function expressions (=>)",
            ⟨"45+", "22+", "10+", "12+", "No"⟩, none⟩] .chrome,
        x.toQ ≤ m.toQ) ∧
      parseVersion (browserSlot .chrome (calculateMinimumVersions
        [⟨"Arrow Functions", "Arrow function expressions (=>)",
          ⟨"45+", "22+", "10+", "12+", "No"⟩, none⟩])) = some m := by
  refine ⟨?_, by decide, c5_minimum_version_is_max _ _ ?_ (by decide)⟩ <;>
    (intro f hf
     rw [List.mem_singleton] at hf
     subst hf
     exact ⟨"arrow-function", by decide⟩)

/-- Cumulative character length of a line list, counting one newline per
line, as the `extractSnippet` loop accumulates it. -/
def cumLen (lines : List (List Char)) : Nat :=
  (lines.map (fun l => l.length + 1)).sum

theorem cumLen_nil : cumLen [] = 0 := rfl

theorem cumLen_cons (l : List Char) (ls : List (List Char)) :
    cumLen (l :: ls) = (l.length + 1) + cumLen ls := by
  rw [cumLen, cumLen, List.map_cons, List.sum_cons]

/-- `splitNL` never returns an empty line list. -/
theorem splitNL_ne_nil (code : List Char) : splitNL code ≠ [] := by
  match code with
  | [] => simp [splitNL]
  | c :: cs =>
    rw [splitNL]
    split
    · exact List.cons_ne_nil _ _
    · split
      · exact List.cons_ne_nil _ _
      · exact List.cons_ne_nil _ _

/-- The lines of a text cumulate to its length plus one. -/
theorem cumLen_splitNL (code : List Char) :
    cumLen (splitNL code) = code.length + 1 := by
  match code with
  | [] => rfl
  | c :: cs =>
    rw [splitNL]
    split
    · rw [cumLen_cons, cumLen_splitNL cs]
      simp only [List.length_nil, List.length_cons]
      omega
    · rcases hs : splitNL cs with _ | ⟨l, ls⟩
      · exact absurd hs (splitNL_ne_nil cs)
      · have := cumLen_splitNL cs
        rw [hs, cumLen_cons] at this
        rw [cumLen_cons]
        simp only [List.length_cons]
        omega

/-- Modelled from the spec wording of the Snippet Extractor: the match
line of an offset is the first line whose cumulative character length
exceeds the offset (1-based), and the column is the offset minus the
cumulative length of the lines before that line. -/
def specLocate : List (List Char) → Nat → Nat × Nat
  | [], off => (1, off)
  | l :: ls, off =>
    if off < l.length + 1 then (1, off)
    else
      let r := specLocate ls (off - (l.length + 1))
      (r.1 + 1, r.2)

/-- The located line number is at least one. -/
theorem specLocate_pos (lines : List (List Char)) (off : Nat) :
    1 ≤ (specLocate lines off).1 := by
  match lines with
  | [] => exact le_refl 1
  | l :: ls =>
    rw [specLocate]
    split
    · exact le_refl 1
    · simp only []
      omega

/-- After the start line is found, the scanning loop leaves `startLine` and
`startCol` untouched and finds the end line declaratively. -/
theorem scanLoop_end (s e : Nat) :
    ∀ (lines : List (List Char)) (i pos sl sc : Nat),
    sl ≠ 0 → pos ≤ e → e < pos + cumLen lines →
    scanLoop s e lines i pos sl sc = (sl, i + (specLocate lines (e - pos)).1, sc)
  | [], i, pos, sl, sc => by
    intro hsl hpe hbound
    rw [cumLen_nil] at hbound
    omega
  | l :: ls, i, pos, sl, sc => by
    intro hsl hpe hbound
    simp only [scanLoop]
    have hcond : ¬ (pos + (l.length + 1) > s ∧ sl = 0) := fun h => hsl h.2
    rw [if_neg hcond, if_neg hcond]
    by_cases hend : pos + (l.length + 1) > e
    · rw [if_pos hend]
      have h1 : (specLocate (l :: ls) (e - pos)).1 = 1 := by
        rw [specLocate, if_pos (by omega : e - pos < l.length + 1)]
      rw [h1]
    · rw [if_neg hend]
      rw [cumLen_cons] at hbound
      rw [scanLoop_end s e ls (i + 1) (pos + (l.length + 1)) sl sc hsl
        (by omega) (by omega)]
      have h2 : (specLocate (l :: ls) (e - pos)).1 =
          (specLocate ls (e - pos - (l.length + 1))).1 + 1 := by
        rw [specLocate, if_neg (by omega : ¬ e - pos < l.length + 1)]
      have h3 : e - pos - (l.length + 1) = e - (pos + (l.length + 1)) := by omega
      rw [h3] at h2
      rw [h2]
      have h4 : i + ((specLocate ls (e - (pos + (l.length + 1)))).1 + 1) =
          i + 1 + (specLocate ls (e - (pos + (l.length + 1)))).1 := by omega
      rw [h4]

/-- The scanning loop of `extractSnippet`, started before the offsets,
computes the declarative line and column of `s` and the declarative line
of `e`. -/
theorem scanLoop_spec (s e : Nat) :
    ∀ (lines : List (List Char)) (i pos : Nat),
    pos ≤ s → s ≤ e → e < pos + cumLen lines →
    scanLoop s e lines i pos 0 0 =
      (i + (specLocate lines (s - pos)).1,
       i + (specLocate lines (e - pos)).1,
       (specLocate lines (s - pos)).2)
  | [], i, pos => by
    intro hps hse hbound
    rw [cumLen_nil] at hbound
    omega
  | l :: ls, i, pos => by
    intro hps hse hbound
    simp only [scanLoop]
    rw [cumLen_cons] at hbound
    by_cases hstart : pos + (l.length + 1) > s
    · simp only [and_true]
      rw [if_pos hstart, if_pos hstart]
      have hs1 : specLocate (l :: ls) (s - pos) = (1, s - pos) := by
        rw [specLocate, if_pos (by omega : s - pos < l.length + 1)]
      by_cases hend : pos + (l.length + 1) > e
      · rw [if_pos hend]
        have he1 : (specLocate (l :: ls) (e - pos)).1 = 1 := by
          rw [specLocate, if_pos (by omega : e - pos < l.length + 1)]
        rw [hs1, he1]
      · rw [if_neg hend]
        rw [scanLoop_end s e ls (i + 1) (pos + (l.length + 1)) (i + 1) (s - pos)
          (by omega) (by omega) (by omega)]
        have he2 : (specLocate (l :: ls) (e - pos)).1 =
            (specLocate ls (e - (pos + (l.length + 1)))).1 + 1 := by
          rw [specLocate, if_neg (by omega : ¬ e - pos < l.length + 1)]
          have : e - pos - (l.length + 1) = e - (pos + (l.length + 1)) := by omega
          rw [this]
        rw [hs1, he2]
        have h4 : i + ((specLocate ls (e - (pos + (l.length + 1)))).1 + 1) =
            i + 1 + (specLocate ls (e - (pos + (l.length + 1)))).1 := by omega
        rw [h4]
    · simp only [and_true]
      rw [if_neg hstart, if_neg hstart]
      have hend : ¬ pos + (l.length + 1) > e := by omega
      rw [if_neg hend]
      rw [scanLoop_spec s e ls (i + 1) (pos + (l.length + 1))
        (by omega) hse (by omega)]
      have hshift : ∀ off : Nat, ¬ off - pos < l.length + 1 →
          specLocate (l :: ls) (off - pos) =
            ((specLocate ls (off - (pos + (l.length + 1)))).1 + 1,
             (specLocate ls (off - (pos + (l.length + 1)))).2) := by
        intro off hoff
        rw [specLocate, if_neg hoff]
        have : off - pos - (l.length + 1) = off - (pos + (l.length + 1)) := by omega
        rw [this]
      rw [hshift s (by omega), hshift e (by omega)]
      simp only [Prod.mk.injEq]
      exact ⟨by omega, by omega, trivial⟩

/-- C9: for every source text and every offset span `[s, e)` into it, the
Snippet Extractor (a total function, so it cannot throw, including for
`s = e` and at line boundaries) returns the snippet whose match line and
column are the declarative first-line-exceeding location of `s`, whose
match end line is that of `e`, whose context runs from two lines before the
match line to two lines after the end line clipped to the document, whose
`startLine` field is the 1-based number of the first context line, and
whose match text is the raw slice `code[s:e)`; moreover the first context
line number equals `max 1 (matchLine - 2)`. -/
theorem c9_extract_snippet_locates (code : List Char) (s e : Nat)
    (hse : s ≤ e) (hlen : e ≤ code.length) :
    extractSnippet code s e =
      { text := ⟨joinNL (((splitNL code).drop ((specLocate (splitNL code) s).1 - 3)).take
          (min (splitNL code).length ((specLocate (splitNL code) e).1 + 2) -
            ((specLocate (splitNL code) s).1 - 3)))⟩
        startLine := ((specLocate (splitNL code) s).1 - 3) + 1
        matchLine := (specLocate (splitNL code) s).1
        matchCol := (specLocate (splitNL code) s).2
        matchLength := e - s
        matchText := ⟨(code.drop s).take (e - s)⟩ } ∧
    ((specLocate (splitNL code) s).1 - 3) + 1 =
      max 1 ((specLocate (splitNL code) s).1 - 2) := by
  have hb : e < 0 + cumLen (splitNL code) := by
    rw [cumLen_splitNL]
    omega
  have hscan := scanLoop_spec s e (splitNL code) 0 0 (by omega) hse hb
  rw [Nat.sub_zero, Nat.sub_zero] at hscan
  constructor
  · simp only [extractSnippet]
    rw [hscan]
    simp only [Nat.zero_add]
  · have := specLocate_pos (splitNL code) s
    omega

/-- Source text with three lines used to witness C9. -/
def sampleCode : List Char := "const a = 1;\nawait g();\nlet b;".data

/-- Witness for C9 at the span of `await g()` on the middle line. -/
theorem c9_extract_snippet_locates_witness :
    (13 ≤ 22 ∧ 22 ≤ sampleCode.length) ∧
    (extractSnippet sampleCode 13 22 =
      { text := ⟨joinNL (((splitNL sampleCode).drop ((specLocate (splitNL sampleCode) 13).1 - 3)).take
          (min (splitNL sampleCode).length ((specLocate (splitNL sampleCode) 22).1 + 2) -
            ((specLocate (splitNL sampleCode) 13).1 - 3)))⟩
        startLine := ((specLocate (splitNL sampleCode) 13).1 - 3) + 1
        matchLine := (specLocate (splitNL sampleCode) 13).1
        matchCol := (specLocate (splitNL sampleCode) 13).2
        matchLength := 22 - 13
        matchText := ⟨(sampleCode.drop 13).take (22 - 13)⟩ } ∧
    ((specLocate (splitNL sampleCode) 13).1 - 3) + 1 =
      max 1 ((specLocate (splitNL sampleCode) 13).1 - 2)) :=
  ⟨⟨by decide, by decide⟩,
   c9_extract_snippet_locates sampleCode 13 22 (by decide) (by decide)⟩
